import Mathlib

/-!
Formal model of the AI subsystem of the portfolio backend.

Source files embedded here:
- backend/app/services/ai/rag_service.py   (RagService: embed, search, index_text,
  re_embed_all, get_embed_status)
- backend/app/services/ai/writing_service.py (WritingService.stream, PROMPT_MAP)
- backend/app/services/ai/prompts.py
- backend/app/api/v1/routes/ai.py          (stream_response)
- backend/app/core/constants.py            (EMBEDDING_DIMENSIONS, RAG_TOP_K)
- backend/app/schemas/ai.py                (WriteRequest, EmbedStatus, ReEmbedResult)
- alembic migrations a0390250674e and c2345678901b (table columns, vector(1536))

External collaborators (OpenAI-compatible providers, the postgres/pgvector store)
are modelled as explicit parameters describing their visible behaviour at the
boundary used by the code.
-/

namespace Portfolio

/-- Constant EMBEDDING_DIMENSIONS from app/core/constants.py (value 1536, matching
the vector(1536) columns created by the alembic migrations). -/
def EMBEDDING_DIMENSIONS : Nat := 1536

/-- Constant RAG_TOP_K from app/core/constants.py: default number of search results. -/
def RAG_TOP_K : Nat := 5

/-- Python str.strip() on a character list: drop leading and trailing whitespace. -/
def stripChars (cs : List Char) : List Char :=
  ((cs.dropWhile Char.isWhitespace).reverse.dropWhile Char.isWhitespace).reverse

/-- Python str.strip(): remove leading and trailing whitespace. -/
def pyStrip (s : String) : String := ⟨stripChars s.data⟩

/-- Error taxonomy of app/core/exceptions.py restricted to what the AI subsystem
raises: ValueError (InvalidArgument, from index_text) and AIServiceError
(subclass of ExternalServiceError). Each carries the message string stored on
the instance. -/
inductive SvcError where
  | valueError (message : String)
  | aiServiceError (message : String)
deriving DecidableEq

/-- Message attribute of a raised error (PortfolioError.message). -/
def SvcError.message : SvcError → String
  | .valueError m => m
  | .aiServiceError m => m

/-- Boundary behaviour of the embedding provider (the AsyncOpenAI client pointed at
the /v1/embeddings endpoint): for a given input string it either returns the
embedding vector of response.data[0] or raises an OpenAIError with a message.
Vector components are modelled as rationals. -/
def EmbedClient : Type := String → Except String (List ℚ)

/-- Observable side effects of RagService operations: a network call to the
embedding provider, or an UPDATE statement sent to the store. -/
inductive Event where
  | embedCall (input : String)
  | storeWrite (table : String) (rowId : String) (vec : List ℚ)
deriving DecidableEq

/-- RagService.embed (rag_service.py lines 62 to 95). Returns the result together
with the list of provider calls performed. Empty or whitespace-only input
returns EMBEDDING_DIMENSIONS zeros without calling the provider; a provider
error is re-raised as AIServiceError. -/
def embed (client : EmbedClient) (text : String) : Except SvcError (List ℚ) × List Event :=
  if pyStrip text = "" then
    (.ok (List.replicate EMBEDDING_DIMENSIONS (0 : ℚ)), [])
  else
    match client (pyStrip text) with
    | .ok v => (.ok v, [.embedCall (pyStrip text)])
    | .error m => (.error (.aiServiceError ("Embedding failed: " ++ m)), [.embedCall (pyStrip text)])

/-- Row of the projects table (alembic a0390250674e): title, slug, description are
NOT NULL; content is nullable; content_embedding is the nullable vector column. -/
structure ProjectRow where
  id : String
  title : String
  slug : String
  description : String
  content : Option String
  content_embedding : Option (List ℚ)
deriving DecidableEq

/-- Row of the posts table (alembic c2345678901b): title, slug, excerpt NOT NULL;
body nullable; content_embedding nullable vector column. -/
structure PostRow where
  id : String
  title : String
  slug : String
  excerpt : String
  body : Option String
  content_embedding : Option (List ℚ)
deriving DecidableEq

/-- Row of the certifications table (alembic c2345678901b): name, issuer NOT NULL;
description nullable; content_embedding nullable vector column. -/
structure CertificationRow where
  id : String
  name : String
  issuer : String
  description : Option String
  content_embedding : Option (List ℚ)
deriving DecidableEq

/-- Snapshot of the three content tables read and written by RagService. -/
structure Database where
  projects : List ProjectRow
  posts : List PostRow
  certifications : List CertificationRow
deriving DecidableEq

/-- Search result dict built by RagService.search (id, type, title, excerpt,
slug, distance). -/
structure SearchResult where
  id : String
  type : String
  title : String
  excerpt : String
  slug : Option String
  distance : ℚ
deriving DecidableEq

/-- Distance metric of the store: pgvector cosine distance. The operator is
computed inside postgres, so it is a parameter of the model; the claims proved
below hold for every metric. -/
def Dist : Type := List ℚ → List ℚ → ℚ

/-- Rows contributed by the projects arm of the UNION ALL in RagService.search:
rows with a NULL content_embedding are excluded by the WHERE clause; excerpt is
the description, slug is the project slug. -/
def projectCandidates (dist : Dist) (qv : List ℚ) (ps : List ProjectRow) : List SearchResult :=
  ps.filterMap fun p =>
    p.content_embedding.map fun e =>
      { id := p.id, type := "project", title := p.title, excerpt := p.description,
        slug := some p.slug, distance := dist e qv }

/-- Rows contributed by the posts arm of the UNION ALL in RagService.search. -/
def postCandidates (dist : Dist) (qv : List ℚ) (ps : List PostRow) : List SearchResult :=
  ps.filterMap fun p =>
    p.content_embedding.map fun e =>
      { id := p.id, type := "post", title := p.title, excerpt := p.excerpt,
        slug := some p.slug, distance := dist e qv }

/-- Rows contributed by the certifications arm of the UNION ALL: title is the
name, excerpt is COALESCE(description, issuer), slug is NULL. -/
def certCandidates (dist : Dist) (qv : List ℚ) (cs : List CertificationRow) : List SearchResult :=
  cs.filterMap fun c =>
    c.content_embedding.map fun e =>
      { id := c.id, type := "certification", title := c.name,
        excerpt := c.description.getD c.issuer, slug := none, distance := dist e qv }

/-- All rows of the UNION ALL query in RagService.search, before ORDER BY. -/
def searchCandidates (dist : Dist) (qv : List ℚ) (db : Database) : List SearchResult :=
  projectCandidates dist qv db.projects ++ postCandidates dist qv db.posts ++
    certCandidates dist qv db.certifications

/-- Ordering used by the ORDER BY distance ASC clause. -/
def byDistance (a b : SearchResult) : Prop := a.distance ≤ b.distance

instance : DecidableRel byDistance :=
  fun a b => inferInstanceAs (Decidable (a.distance ≤ b.distance))

instance : IsTotal SearchResult byDistance :=
  ⟨fun a b => le_total a.distance b.distance⟩

instance : IsTrans SearchResult byDistance :=
  ⟨fun _ _ _ h1 h2 => le_trans h1 h2⟩

/-- RagService.search (rag_service.py lines 101 to 201). The storage read
(db.execute of the UNION query) is modelled by dbRead: an error value means the
read raised; the code catches any exception there and returns the empty list.
An embedding failure propagates as AIServiceError. On a successful read the
rows are the candidates ordered by ascending distance, limited to limit. -/
def search (client : EmbedClient) (dist : Dist) (dbRead : Except String Database)
    (query : String) (limit : Nat) : Except SvcError (List SearchResult) :=
  match (embed client query).1 with
  | .error e => .error e
  | .ok qv =>
    match dbRead with
    | .error _ => .ok []
    | .ok db => .ok ((List.insertionSort byDistance (searchCandidates dist qv db)).take limit)

/-- Transient storage failure model for the UPDATE plus commit in index_text:
true means the statement for that (table, rowId) raises. -/
def WriteFailure : Type := String → String → Bool

/-- Effect of UPDATE projects SET content_embedding = v WHERE id = rowId. -/
def setProjectEmbedding (ps : List ProjectRow) (rowId : String) (v : List ℚ) : List ProjectRow :=
  ps.map fun p => if p.id = rowId then { p with content_embedding := some v } else p

/-- Effect of UPDATE posts SET content_embedding = v WHERE id = rowId. -/
def setPostEmbedding (ps : List PostRow) (rowId : String) (v : List ℚ) : List PostRow :=
  ps.map fun p => if p.id = rowId then { p with content_embedding := some v } else p

/-- Effect of UPDATE certifications SET content_embedding = v WHERE id = rowId. -/
def setCertEmbedding (cs : List CertificationRow) (rowId : String) (v : List ℚ) :
    List CertificationRow :=
  cs.map fun c => if c.id = rowId then { c with content_embedding := some v } else c

/-- Dispatch of the UPDATE statement to the named table (index_text interpolates
the table name into the SQL text; the allow-list restricts it to the three
content tables). -/
def applyUpdate (db : Database) (table rowId : String) (v : List ℚ) : Database :=
  if table = "projects" then { db with projects := setProjectEmbedding db.projects rowId v }
  else if table = "posts" then { db with posts := setPostEmbedding db.posts rowId v }
  else { db with certifications := setCertEmbedding db.certifications rowId v }

/-- Storage behaviour of the UPDATE plus commit issued by index_text. The columns
are vector(1536) (alembic migrations), so postgres rejects a vector literal
whose length differs from EMBEDDING_DIMENSIONS; wf injects any other failure of
the statement. A rowId matching no row updates zero rows and succeeds. -/
def storeUpdate (wf : WriteFailure) (db : Database) (table rowId : String) (v : List ℚ) :
    Except String Database :=
  if wf table rowId then .error "storage failure"
  else if v.length ≠ EMBEDDING_DIMENSIONS then .error "dimension mismatch"
  else .ok (applyUpdate db table rowId v)

/-- Allow-list of target tables in index_text (rag_service.py line 348). -/
def allowed_tables : List String := ["projects", "posts", "certifications"]

/-- Result of one index_text call: the raised error if any, the database after the
call (rollback restores the original on failure), and the observable events. -/
structure IndexOutcome where
  result : Except SvcError Unit
  db : Database
  events : List Event

/-- True when the call raised. -/
def IndexOutcome.failed (o : IndexOutcome) : Bool :=
  match o.result with
  | .ok _ => false
  | .error _ => true

/-- RagService.index_text (rag_service.py lines 318 to 364). Checks the table
allow-list first (ValueError, before any provider or storage call), then embeds
the content, then issues one UPDATE plus commit; a storage failure rolls back
and is re-raised as AIServiceError. -/
def index_text (client : EmbedClient) (wf : WriteFailure) (db : Database)
    (table rowId content : String) : IndexOutcome :=
  if table ∈ allowed_tables then
    match embed client content with
    | (.error e, evs) => { result := .error e, db := db, events := evs }
    | (.ok v, evs) =>
      match storeUpdate wf db table rowId v with
      | .error m =>
        { result := .error (.aiServiceError ("Failed to store embedding: " ++ m)),
          db := db, events := evs ++ [.storeWrite table rowId v] }
      | .ok db2 =>
        { result := .ok (), db := db2, events := evs ++ [.storeWrite table rowId v] }
  else
    { result := .error (.valueError ("Invalid table " ++ table)), db := db, events := [] }

/-- Python " ".join(filter(None, parts)): drop None and empty strings, join the
rest with single spaces. -/
def joinPresent (parts : List (Option String)) : String :=
  String.intercalate " " ((parts.filterMap id).filter (fun s => s ≠ ""))

/-- Embeddable text of a project row in re_embed_all: title, description, content. -/
def projectContent (p : ProjectRow) : String :=
  joinPresent [some p.title, some p.description, p.content]

/-- Embeddable text of a post row in re_embed_all: title, excerpt, body. -/
def postContent (p : PostRow) : String :=
  joinPresent [some p.title, some p.excerpt, p.body]

/-- Embeddable text of a certification row in re_embed_all: name, issuer,
description. -/
def certContent (c : CertificationRow) : String :=
  joinPresent [some c.name, some c.issuer, c.description]

/-- ReEmbedResult schema (schemas/ai.py): aggregate counts returned by
re_embed_all. -/
structure ReEmbedResult where
  indexed : Nat
  errors : Nat
deriving DecidableEq

/-- One loop iteration of re_embed_all: call index_text, count a success or an
error, continue with the database left by the call. -/
def reEmbedStep (client : EmbedClient) (wf : WriteFailure) (st : ReEmbedResult × Database)
    (table rowId content : String) : ReEmbedResult × Database :=
  let o := index_text client wf st.2 table rowId content
  match o.result with
  | .ok _ => ({ st.1 with indexed := st.1.indexed + 1 }, o.db)
  | .error _ => ({ st.1 with errors := st.1.errors + 1 }, o.db)

/-- RagService.re_embed_all (rag_service.py lines 245 to 316): reads the rows of
each table in turn (each SELECT happens when its loop starts, on the database
state left by the previous loops) and calls index_text per row, counting
successes and errors; a failing row never aborts the batch. -/
def re_embed_all (client : EmbedClient) (wf : WriteFailure) (db : Database) :
    ReEmbedResult × Database :=
  let st0 : ReEmbedResult × Database := ({ indexed := 0, errors := 0 }, db)
  let st1 := db.projects.foldl
    (fun st p => reEmbedStep client wf st "projects" p.id (projectContent p)) st0
  let st2 := st1.2.posts.foldl
    (fun st p => reEmbedStep client wf st "posts" p.id (postContent p)) st1
  st2.2.certifications.foldl
    (fun st c => reEmbedStep client wf st "certifications" c.id (certContent c)) st2

/-- EmbedStatusItem schema (schemas/ai.py lines 23 to 37). -/
structure EmbedStatusItem where
  total : Nat
  indexed : Nat
deriving DecidableEq

/-- EmbedStatus schema (schemas/ai.py). -/
structure EmbedStatus where
  model : String
  dims : Nat
  projects : EmbedStatusItem
  posts : EmbedStatusItem
  certifications : EmbedStatusItem
deriving DecidableEq

/-- Name of the active embedding model. rag_service.py imports VLLM_EMBED_MODEL
from app/core/constants.py, where no such constant is defined; the value is
irrelevant to every claim, so it is kept abstract as the name used by the
module docstring. -/
def VLLM_EMBED_MODEL : String := "BAAI/bge-base-en-v1.5"

/-- RagService.get_embed_status (rag_service.py lines 211 to 239): one statement
computes, from a single snapshot, the row count and the count of rows with a
non-null content_embedding for each of the three tables. -/
def get_embed_status (db : Database) : EmbedStatus :=
  { model := VLLM_EMBED_MODEL
    dims := EMBEDDING_DIMENSIONS
    projects :=
      { total := db.projects.length
        indexed := (db.projects.filter (fun p => p.content_embedding.isSome)).length }
    posts :=
      { total := db.posts.length
        indexed := (db.posts.filter (fun p => p.content_embedding.isSome)).length }
    certifications :=
      { total := db.certifications.length
        indexed := (db.certifications.filter (fun c => c.content_embedding.isSome)).length } }

/-- WriteMode enumeration (schemas/ai.py): write, improve, summarise. -/
inductive WriteMode where
  | write
  | improve
  | summarise
deriving DecidableEq

/-- WRITE_SYSTEM_PROMPT from prompts.py. -/
def WRITE_SYSTEM_PROMPT : String :=
  "You are a writing assistant for a developer portfolio.\nWrite clear, professional, and engaging content with concrete details."

/-- IMPROVE_SYSTEM_PROMPT from prompts.py. -/
def IMPROVE_SYSTEM_PROMPT : String :=
  "You are a technical editor for developer portfolio content.\nImprove clarity, conciseness, and professionalism while preserving voice."

/-- SUMMARISE_SYSTEM_PROMPT from prompts.py. -/
def SUMMARISE_SYSTEM_PROMPT : String :=
  "Summarise the provided text into 2-3 clear, specific sentences.\nReturn only the summary."

/-- PROMPT_MAP from writing_service.py lines 25 to 29, keyed by the closed
WriteMode enumeration. -/
def PROMPT_MAP : WriteMode → String
  | .write => WRITE_SYSTEM_PROMPT
  | .improve => IMPROVE_SYSTEM_PROMPT
  | .summarise => SUMMARISE_SYSTEM_PROMPT

/-- WriteRequest schema (schemas/ai.py): prompt, mode, optional context. -/
structure WriteRequest where
  prompt : String
  mode : WriteMode
  context : Option String := none
deriving DecidableEq

/-- One chat message sent to the generation provider. -/
structure ChatMessage where
  role : String
  content : String
deriving DecidableEq

/-- Message list built by WritingService.stream (writing_service.py lines 59 to
69): the system prompt selected by the mode, then the user message. Python
tests the truthiness of request.context, so a None or empty context sends the
prompt verbatim and a non-empty context frames it. -/
def buildMessages (req : WriteRequest) : List ChatMessage :=
  let base : List ChatMessage := [{ role := "system", content := PROMPT_MAP req.mode }]
  match req.context with
  | some ctx =>
    if ctx = "" then
      base ++ [{ role := "user", content := req.prompt }]
    else
      base ++ [{ role := "user",
                 content := "Context:\n" ++ ctx ++ "\n\nRequest:\n" ++ req.prompt }]
  | none => base ++ [{ role := "user", content := req.prompt }]

/-- One choice inside a streamed chunk; delta is chunk.choices[0].delta.content. -/
structure ChatChoice where
  delta : Option String
deriving DecidableEq

/-- One chunk of the provider stream ({choices: [{delta: {content}}]}). -/
structure ChatChunk where
  choices : List ChatChoice
deriving DecidableEq

/-- Boundary behaviour of the generation provider for one request: either the
create call raises an OpenAIError immediately, or it yields a list of chunks
(those received before any failure) followed by an optional mid-stream
OpenAIError. -/
inductive ChatOutcome where
  | createError (message : String)
  | stream (chunks : List ChatChunk) (midError : Option String)
deriving DecidableEq

/-- Generation provider: behaviour as a function of the message list sent. -/
def ChatProvider : Type := List ChatMessage → ChatOutcome

/-- Delta yielded for one chunk by the loop body of WritingService.stream: chunks
with no choices are skipped, and only truthy (non-empty, non-None) delta
content is yielded. -/
def chunkDelta (c : ChatChunk) : Option String :=
  match c.choices with
  | [] => none
  | ch :: _ =>
    match ch.delta with
    | some s => if s = "" then none else some s
    | none => none

/-- Run of the generator returned by WritingService.stream: the strings it
yielded, and the error it raised afterwards, if any. -/
structure StreamRun where
  yielded : List String
  raised : Option SvcError
deriving DecidableEq

/-- WritingService.stream (writing_service.py lines 43 to 85): builds the
messages, calls the provider, yields truthy deltas, and converts an
OpenAIError (at create time or mid-iteration) into a raised AIServiceError. -/
def WritingService.stream (provider : ChatProvider) (req : WriteRequest) : StreamRun :=
  match provider (buildMessages req) with
  | .createError m =>
    { yielded := [], raised := some (.aiServiceError ("AI stream failed: " ++ m)) }
  | .stream chunks midError =>
    { yielded := chunks.filterMap chunkDelta,
      raised := midError.map (fun m => .aiServiceError ("AI stream failed: " ++ m)) }

/-- SSE frame for one content chunk. -/
def dataFrame (s : String) : String := "data: " ++ s ++ "\n\n"

/-- Terminal SSE sentinel frame. -/
def doneFrame : String := "data: [DONE]\n\n"

/-- SSE frame for an error message. -/
def errorFrame (m : String) : String := "event: error\ndata: " ++ m ++ "\n\n"

/-- stream_response (routes/ai.py lines 24 to 32): relays each yielded chunk as a
data frame; on normal exhaustion appends the [DONE] sentinel; an AIServiceError
raised by the inner generator is caught and serialized as an error frame
followed by the [DONE] sentinel. The function is total: nothing escapes to the
transport layer. -/
def stream_response (provider : ChatProvider) (req : WriteRequest) : List String :=
  let run := WritingService.stream provider req
  match run.raised with
  | none => run.yielded.map dataFrame ++ [doneFrame]
  | some e => run.yielded.map dataFrame ++ [errorFrame e.message, doneFrame]

/-- Zero vector of the configured dimension. -/
def zeroVec : List ℚ := List.replicate EMBEDDING_DIMENSIONS (0 : ℚ)

/-- Test fixture: an embedding provider that always fails. -/
def failingClient : EmbedClient := fun _ => .error "connection refused"

/-- Test fixture: an embedding provider returning the zero vector of the right
dimension. -/
def okClient : EmbedClient := fun _ => .ok zeroVec

/-- Test fixture: an embedding provider returning a vector of length 700. -/
def shortClient : EmbedClient := fun _ => .ok (List.replicate 700 (0 : ℚ))

/-- Test fixture: a storage layer whose writes never fail. -/
def noFail : WriteFailure := fun _ _ => false

/-- Test fixture: the constant-zero distance metric. -/
def zeroDist : Dist := fun _ _ => 0

/-- Test fixture: one indexed project row. -/
def sampleProject : ProjectRow :=
  { id := "p1", title := "T", slug := "t", description := "Desc", content := none,
    content_embedding := some zeroVec }

/-- Test fixture: a database with one indexed project and empty other tables. -/
def sampleDb : Database :=
  { projects := [sampleProject], posts := [], certifications := [] }

/-- Vectors stored across the three tables of a database snapshot. -/
def vecsOf (db : Database) : List (List ℚ) :=
  db.projects.filterMap (fun p => p.content_embedding) ++
    db.posts.filterMap (fun p => p.content_embedding) ++
    db.certifications.filterMap (fun c => c.content_embedding)

/-- Length invariant of the stored vectors: every persisted embedding has exactly
EMBEDDING_DIMENSIONS components. -/
def allVecsD (db : Database) : Prop :=
  ∀ v ∈ vecsOf db, v.length = EMBEDDING_DIMENSIONS

/-- Whether one item of the batch fails in re_embed_all: its embedding call fails,
or its UPDATE fails (transient storage failure or wrong dimension). This
predicate depends only on the provider, the storage failure model and the item,
not on the database contents. -/
def item_fails (client : EmbedClient) (wf : WriteFailure) (table rowId content : String) : Bool :=
  match (embed client content).1 with
  | .error _ => true
  | .ok v => if wf table rowId then true else if v.length ≠ EMBEDDING_DIMENSIONS then true else false

/-- Total number of content items across the three tables. -/
def totalItems (db : Database) : Nat :=
  db.projects.length + db.posts.length + db.certifications.length

/-- Number of items of the batch that fail, counted per table over the canonical
content of each row. -/
def failCount (client : EmbedClient) (wf : WriteFailure) (db : Database) : Nat :=
  db.projects.countP (fun p => item_fails client wf "projects" p.id (projectContent p)) +
    db.posts.countP (fun p => item_fails client wf "posts" p.id (postContent p)) +
    db.certifications.countP (fun c => item_fails client wf "certifications" c.id (certContent c))

/-- Identity and embeddable text of a project row (everything index_text cannot
change). -/
def projText (p : ProjectRow) : String × String := (p.id, projectContent p)

/-- Identity and embeddable text of a post row. -/
def postText (p : PostRow) : String × String := (p.id, postContent p)

/-- Identity and embeddable text of a certification row. -/
def certText (c : CertificationRow) : String × String := (c.id, certContent c)

/-- The per-table sequences of (id, text) pairs: the part of the database that
index_text leaves untouched. -/
def textShapes (db : Database) : List (String × String) × List (String × String) ×
    List (String × String) :=
  (db.projects.map projText, db.posts.map postText, db.certifications.map certText)

/-- Whether the UPDATE of index_text matches a row: the id exists in the target
table. -/
def rowExists (db : Database) (table rowId : String) : Bool :=
  if table = "projects" then db.projects.any (fun p => p.id == rowId)
  else if table = "posts" then db.posts.any (fun p => p.id == rowId)
  else db.certifications.any (fun c => c.id == rowId)

/-- Test fixture: a generation provider whose create call raises immediately. -/
def boomProvider : ChatProvider := fun _ => .createError "boom"

/-- Test fixture: the search result produced from sampleProject under zeroDist. -/
def sampleResult : SearchResult :=
  { id := "p1", type := "project", title := "T", excerpt := "Desc", slug := some "t",
    distance := 0 }

/-- Search result backed by a stored row whose embedding is non-null, with
matching identity fields. -/
def resultFromRow (db : Database) (r : SearchResult) : Prop :=
  (∃ p ∈ db.projects, p.content_embedding.isSome ∧
    r.id = p.id ∧ r.type = "project" ∧ r.title = p.title) ∨
  (∃ p ∈ db.posts, p.content_embedding.isSome ∧
    r.id = p.id ∧ r.type = "post" ∧ r.title = p.title) ∨
  (∃ c ∈ db.certifications, c.content_embedding.isSome ∧
    r.id = c.id ∧ r.type = "certification" ∧ r.title = c.name)

/-- C7: for every input string that is empty or whitespace-only, embed returns a
vector of exactly EMBEDDING_DIMENSIONS zeros and performs no call to the
embedding provider (its event list is empty), for every provider behaviour. -/
theorem embed_blank_returns_zeros (client : EmbedClient) (s : String)
    (h : pyStrip s = "") :
    embed client s = (.ok (List.replicate EMBEDDING_DIMENSIONS (0 : ℚ)), []) := by
  simp [embed, h]

/-- Witness for embed_blank_returns_zeros at the whitespace string of two spaces
and the always-failing provider. -/
theorem embed_blank_returns_zeros_witness :
    embed failingClient "  " = (.ok (List.replicate EMBEDDING_DIMENSIONS (0 : ℚ)), []) :=
  embed_blank_returns_zeros failingClient "  " (by decide)

/-- C10: for every database snapshot, the status returned by get_embed_status has
indexed at most total for each of the three collections, because the indexed
count filters the rows counted by total inside one snapshot. -/
theorem get_embed_status_indexed_le_total (db : Database) :
    (get_embed_status db).projects.indexed ≤ (get_embed_status db).projects.total ∧
    (get_embed_status db).posts.indexed ≤ (get_embed_status db).posts.total ∧
    (get_embed_status db).certifications.indexed ≤ (get_embed_status db).certifications.total := by
  refine ⟨?_, ?_, ?_⟩ <;> simpa [get_embed_status] using List.length_filter_le _ _

/-- C3: for every write request and every provider behaviour (success, immediate
failure, or mid-stream failure), the serialized event stream emitted by
stream_response terminates with the literal frame data: [DONE]. -/
theorem stream_response_ends_with_done (provider : ChatProvider) (req : WriteRequest) :
    (stream_response provider req).getLast? = some doneFrame := by
  have key : ∀ run : StreamRun,
      (match run.raised with
        | none => run.yielded.map dataFrame ++ [doneFrame]
        | some e => run.yielded.map dataFrame ++ [errorFrame e.message, doneFrame]).getLast? =
        some doneFrame := by
    intro run
    rcases run with ⟨y, r⟩
    cases r <;> simp [List.getLast?_append]
  exact key (WritingService.stream provider req)

/-- C2: for every write request, a generation provider whose create call fails
immediately yields exactly one error frame followed by the [DONE] sentinel, and
stream_response is a total function, so nothing is raised to the consumer. -/
theorem stream_response_immediate_failure (provider : ChatProvider) (req : WriteRequest)
    (m : String) (h : ∀ msgs, provider msgs = .createError m) :
    stream_response provider req = [errorFrame ("AI stream failed: " ++ m), doneFrame] := by
  unfold stream_response WritingService.stream
  rw [h]
  rfl

/-- Witness for stream_response_immediate_failure at a concrete request and the
immediately-failing provider. -/
theorem stream_response_immediate_failure_witness :
    stream_response boomProvider { prompt := "p", mode := .write, context := none } =
      [errorFrame ("AI stream failed: " ++ "boom"), doneFrame] :=
  stream_response_immediate_failure boomProvider
    { prompt := "p", mode := .write, context := none } "boom" (fun _ => rfl)

/-- C9 counterexample: with context equal to the empty string (present but
falsy in Python), the user message sent is the prompt verbatim, not the framed
Context/Request form the claim requires for every present context. -/
theorem buildMessages_empty_context_counterexample :
    buildMessages { prompt := "p", mode := .write, context := some "" } =
      [{ role := "system", content := WRITE_SYSTEM_PROMPT },
       { role := "user", content := "p" }] ∧
    ("p" : String) ≠ "Context:\n" ++ "" ++ "\n\nRequest:\n" ++ "p" := by
  exact ⟨rfl, by decide⟩

/-- C9 amended: the user message is the framed Context/Request form when a
non-empty context is present, and the prompt verbatim when the context is
absent or empty; the system message is the fixed prompt selected by the mode
from PROMPT_MAP. -/
theorem buildMessages_spec (req : WriteRequest) :
    (∀ c, req.context = some c → c ≠ "" →
      buildMessages req =
        [{ role := "system", content := PROMPT_MAP req.mode },
         { role := "user", content := "Context:\n" ++ c ++ "\n\nRequest:\n" ++ req.prompt }]) ∧
    ((req.context = none ∨ req.context = some "") →
      buildMessages req =
        [{ role := "system", content := PROMPT_MAP req.mode },
         { role := "user", content := req.prompt }]) := by
  constructor
  · intro c hc hne
    simp [buildMessages, hc, hne]
  · rintro (hc | hc) <;> simp [buildMessages, hc]

/-- Witness for buildMessages_spec: a request with a non-empty context gets the
framed user message, and a request without context gets the verbatim prompt. -/
theorem buildMessages_spec_witness :
    buildMessages { prompt := "p", mode := .summarise, context := some "ctx" } =
      [{ role := "system", content := PROMPT_MAP .summarise },
       { role := "user", content := "Context:\n" ++ "ctx" ++ "\n\nRequest:\n" ++ "p" }] ∧
    buildMessages { prompt := "p", mode := .write, context := none } =
      [{ role := "system", content := PROMPT_MAP .write },
       { role := "user", content := "p" }] :=
  ⟨(buildMessages_spec { prompt := "p", mode := .summarise, context := some "ctx" }).1
      "ctx" rfl (by decide),
   (buildMessages_spec { prompt := "p", mode := .write, context := none }).2 (Or.inl rfl)⟩

/-- C1: for every query, an embedding provider that always fails makes search
raise AIServiceError (an ExternalServiceError) whenever the query is non-blank
so that a provider call happens, whereas a failing storage read after a
successful embedding makes search return the empty list. -/
theorem search_failure_modes (dist : Dist) (q : String) (k : Nat) :
    (∀ (client : EmbedClient) (dbRead : Except String Database),
      (∀ s, ∃ m, client s = .error m) → pyStrip q ≠ "" →
      ∃ msg, search client dist dbRead q k = .error (.aiServiceError msg)) ∧
    (∀ (client : EmbedClient) (m : String) (v : List ℚ),
      (embed client q).1 = .ok v →
      search client dist (.error m) q k = .ok []) := by
  constructor
  · intro client dbRead hfail hq
    obtain ⟨m, hm⟩ := hfail (pyStrip q)
    refine ⟨"Embedding failed: " ++ m, ?_⟩
    unfold search embed
    rw [if_neg hq, hm]
  · intro client m v hv
    unfold search
    rw [hv]

/-- Witness for search_failure_modes: the always-failing provider raises on a
non-blank query, and a failing storage read with a healthy provider returns
the empty list. -/
theorem search_failure_modes_witness :
    (∃ msg, search failingClient zeroDist (.ok sampleDb) "query" 5 =
      .error (.aiServiceError msg)) ∧
    search okClient zeroDist (.error "db down") "query" 5 = .ok [] := by
  have h := search_failure_modes zeroDist "query" 5
  refine ⟨h.1 failingClient (.ok sampleDb) (fun s => ⟨"connection refused", rfl⟩) (by decide),
    h.2 okClient "db down" zeroVec ?_⟩
  unfold embed
  rw [if_neg (by decide)]
  rfl

/-- C5: a successful search over a non-empty query returns at most limit
results, sorted by non-decreasing distance, each backed by a stored row whose
embedding is non-null. -/
theorem search_results_spec (client : EmbedClient) (dist : Dist) (db : Database)
    (q : String) (k : Nat) (rs : List SearchResult) (hq : q ≠ "")
    (h : search client dist (.ok db) q k = .ok rs) :
    rs.length ≤ k ∧ rs.Pairwise byDistance ∧ ∀ r ∈ rs, resultFromRow db r := by
  unfold search at h
  cases hE : (embed client q).1 with
  | error e => rw [hE] at h; cases h
  | ok qv =>
    rw [hE] at h
    have hrs : rs = (List.insertionSort byDistance (searchCandidates dist qv db)).take k := by
      cases h; rfl
    subst hrs
    refine ⟨?_, ?_, ?_⟩
    · rw [List.length_take]; exact min_le_left _ _
    · exact List.Pairwise.sublist (List.take_sublist _ _)
        (List.sorted_insertionSort byDistance _)
    · intro r hr
      have hr2 : r ∈ searchCandidates dist qv db :=
        ((List.perm_insertionSort byDistance _).mem_iff).1 (List.mem_of_mem_take hr)
      unfold searchCandidates at hr2
      rcases List.mem_append.1 hr2 with hr3 | hr3
      · rcases List.mem_append.1 hr3 with hr4 | hr4
        · rcases List.mem_filterMap.1 hr4 with ⟨p, hp, hmap⟩
          rcases Option.map_eq_some'.1 hmap with ⟨e, he, rfl⟩
          exact Or.inl ⟨p, hp, by simp [he], rfl, rfl, rfl⟩
        · rcases List.mem_filterMap.1 hr4 with ⟨p, hp, hmap⟩
          rcases Option.map_eq_some'.1 hmap with ⟨e, he, rfl⟩
          exact Or.inr (Or.inl ⟨p, hp, by simp [he], rfl, rfl, rfl⟩)
      · rcases List.mem_filterMap.1 hr3 with ⟨c, hc, hmap⟩
        rcases Option.map_eq_some'.1 hmap with ⟨e, he, rfl⟩
        exact Or.inr (Or.inr ⟨c, hc, by simp [he], rfl, rfl, rfl⟩)

/-- Witness for search_results_spec: a database with one indexed project under
the zero metric returns that single result, trivially sorted and backed by its
row. -/
theorem search_results_spec_witness :
    search okClient zeroDist (.ok sampleDb) "query" 5 = .ok [sampleResult] ∧
    ([sampleResult].length ≤ 5 ∧ [sampleResult].Pairwise byDistance ∧
      ∀ r ∈ [sampleResult], resultFromRow sampleDb r) :=
  ⟨rfl, search_results_spec okClient zeroDist sampleDb "query" 5 [sampleResult]
    (by decide) rfl⟩

/-- Helper: a vector stored after a per-row update of a table is either a vector
stored before or the newly written vector. -/
theorem mem_filterMap_update {α : Type} (ps : List α) (f : α → Option (List ℚ))
    (g : α → α) (v : List ℚ) (hg : ∀ a, f (g a) = f a ∨ f (g a) = some v)
    {w : List ℚ} (hw : w ∈ (ps.map g).filterMap f) :
    w ∈ ps.filterMap f ∨ w = v := by
  rcases List.mem_filterMap.1 hw with ⟨a, ha, hfa⟩
  rcases List.mem_map.1 ha with ⟨p, hp, rfl⟩
  rcases hg p with h | h
  · exact Or.inl (List.mem_filterMap.2 ⟨p, hp, by rw [← h]; exact hfa⟩)
  · rw [h] at hfa
    exact Or.inr (Option.some.inj hfa).symm

/-- Helper: writing a vector of the configured dimension into the projects table
preserves the length invariant. -/
theorem allVecsD_update_projects (db : Database) (r : String) (v : List ℚ)
    (h : allVecsD db) (hv : v.length = EMBEDDING_DIMENSIONS) :
    allVecsD { db with projects := setProjectEmbedding db.projects r v } := by
  intro w hw
  simp only [vecsOf, List.mem_append] at hw
  rcases hw with (hw | hw) | hw
  · have step := mem_filterMap_update db.projects (fun p => p.content_embedding)
      (fun p => if p.id = r then { p with content_embedding := some v } else p) v
      (fun a => by by_cases ha : a.id = r <;> simp [ha]) (by exact hw)
    rcases step with h2 | rfl
    · exact h w (by simp only [vecsOf, List.mem_append]; exact Or.inl (Or.inl h2))
    · exact hv
  · exact h w (by simp only [vecsOf, List.mem_append]; exact Or.inl (Or.inr hw))
  · exact h w (by simp only [vecsOf, List.mem_append]; exact Or.inr hw)

/-- Helper: writing a vector of the configured dimension into the posts table
preserves the length invariant. -/
theorem allVecsD_update_posts (db : Database) (r : String) (v : List ℚ)
    (h : allVecsD db) (hv : v.length = EMBEDDING_DIMENSIONS) :
    allVecsD { db with posts := setPostEmbedding db.posts r v } := by
  intro w hw
  simp only [vecsOf, List.mem_append] at hw
  rcases hw with (hw | hw) | hw
  · exact h w (by simp only [vecsOf, List.mem_append]; exact Or.inl (Or.inl hw))
  · have step := mem_filterMap_update db.posts (fun p => p.content_embedding)
      (fun p => if p.id = r then { p with content_embedding := some v } else p) v
      (fun a => by by_cases ha : a.id = r <;> simp [ha]) (by exact hw)
    rcases step with h2 | rfl
    · exact h w (by simp only [vecsOf, List.mem_append]; exact Or.inl (Or.inr h2))
    · exact hv
  · exact h w (by simp only [vecsOf, List.mem_append]; exact Or.inr hw)

/-- Helper: writing a vector of the configured dimension into the certifications
table preserves the length invariant. -/
theorem allVecsD_update_certs (db : Database) (r : String) (v : List ℚ)
    (h : allVecsD db) (hv : v.length = EMBEDDING_DIMENSIONS) :
    allVecsD { db with certifications := setCertEmbedding db.certifications r v } := by
  intro w hw
  simp only [vecsOf, List.mem_append] at hw
  rcases hw with (hw | hw) | hw
  · exact h w (by simp only [vecsOf, List.mem_append]; exact Or.inl (Or.inl hw))
  · exact h w (by simp only [vecsOf, List.mem_append]; exact Or.inl (Or.inr hw))
  · have step := mem_filterMap_update db.certifications (fun c => c.content_embedding)
      (fun c => if c.id = r then { c with content_embedding := some v } else c) v
      (fun a => by by_cases ha : a.id = r <;> simp [ha]) (by exact hw)
    rcases step with h2 | rfl
    · exact h w (by simp only [vecsOf, List.mem_append]; exact Or.inr h2)
    · exact hv

/-- Helper: applyUpdate with a vector of the configured dimension preserves the
length invariant, for every table name. -/
theorem allVecsD_applyUpdate (db : Database) (t r : String) (v : List ℚ)
    (h : allVecsD db) (hv : v.length = EMBEDDING_DIMENSIONS) :
    allVecsD (applyUpdate db t r v) := by
  unfold applyUpdate
  by_cases h1 : t = "projects"
  · rw [if_pos h1]; exact allVecsD_update_projects db r v h hv
  · rw [if_neg h1]
    by_cases h2 : t = "posts"
    · rw [if_pos h2]; exact allVecsD_update_posts db r v h hv
    · rw [if_neg h2]; exact allVecsD_update_certs db r v h hv

/-- Helper: the store raises when the transient failure flag is set. -/
theorem storeUpdate_wf_true (wf : WriteFailure) (db : Database) (t r : String) (v : List ℚ)
    (h : wf t r = true) : storeUpdate wf db t r v = .error "storage failure" := by
  unfold storeUpdate
  rw [if_pos h]

/-- Helper: the store rejects a vector of the wrong dimension. -/
theorem storeUpdate_len_ne (wf : WriteFailure) (db : Database) (t r : String) (v : List ℚ)
    (h1 : ¬wf t r = true) (h2 : v.length ≠ EMBEDDING_DIMENSIONS) :
    storeUpdate wf db t r v = .error "dimension mismatch" := by
  unfold storeUpdate
  rw [if_neg h1, if_pos h2]

/-- Helper: the store accepts a vector of the configured dimension on a healthy
write and applies the per-table update. -/
theorem storeUpdate_ok (wf : WriteFailure) (db : Database) (t r : String) (v : List ℚ)
    (h1 : ¬wf t r = true) (h2 : v.length = EMBEDDING_DIMENSIONS) :
    storeUpdate wf db t r v = .ok (applyUpdate db t r v) := by
  unfold storeUpdate
  rw [if_neg h1, if_neg (fun hne => hne h2)]

/-- Helper: one index_text call preserves the length invariant of the stored
vectors, for every table argument and every provider and storage behaviour. -/
theorem index_text_preserves_allVecsD (client : EmbedClient) (wf : WriteFailure)
    (db : Database) (t r c : String) (h : allVecsD db) :
    allVecsD ((index_text client wf db t r c).db) := by
  unfold index_text
  by_cases ht : t ∈ allowed_tables
  · rw [if_pos ht]
    split
    next e evs heq => exact h
    next v evs heq =>
      by_cases hwf : wf t r
      · rw [storeUpdate_wf_true wf db t r v hwf]
        exact h
      · by_cases hlen : v.length = EMBEDDING_DIMENSIONS
        · rw [storeUpdate_ok wf db t r v hwf hlen]
          exact allVecsD_applyUpdate db t r v h hlen
        · rw [storeUpdate_len_ne wf db t r v hwf hlen]
          exact h
  · rw [if_neg ht]; exact h

/-- Helper: the database left by one loop iteration of re_embed_all is the
database left by its index_text call. -/
theorem reEmbedStep_db (client : EmbedClient) (wf : WriteFailure)
    (st : ReEmbedResult × Database) (t r c : String) :
    (reEmbedStep client wf st t r c).2 = (index_text client wf st.2 t r c).db := by
  unfold reEmbedStep
  rcases index_text client wf st.2 t r c with ⟨res, db2, evs⟩
  cases res <;> rfl

/-- Helper: folding re_embed_all loop iterations preserves the length invariant. -/
theorem foldl_reEmbedStep_allVecsD {α : Type} (client : EmbedClient) (wf : WriteFailure)
    (t : String) (fId fC : α → String)
    (g : ReEmbedResult × Database → α → ReEmbedResult × Database)
    (hg : ∀ s x, g s x = reEmbedStep client wf s t (fId x) (fC x))
    (xs : List α) (st : ReEmbedResult × Database) (h : allVecsD st.2) :
    allVecsD ((xs.foldl g st).2) := by
  induction xs generalizing st with
  | nil => exact h
  | cons x xs ih =>
    rw [List.foldl_cons, hg]
    apply ih
    rw [reEmbedStep_db]
    exact index_text_preserves_allVecsD client wf st.2 t (fId x) (fC x) h

/-- Helper: re_embed_all preserves the length invariant of the stored vectors. -/
theorem re_embed_all_preserves_allVecsD (client : EmbedClient) (wf : WriteFailure)
    (db : Database) (h : allVecsD db) : allVecsD ((re_embed_all client wf db).2) := by
  simp only [re_embed_all]
  apply foldl_reEmbedStep_allVecsD client wf "certifications" (fun c => c.id) certContent _
    (fun _ _ => rfl)
  apply foldl_reEmbedStep_allVecsD client wf "posts" (fun p => p.id) postContent _
    (fun _ _ => rfl)
  apply foldl_reEmbedStep_allVecsD client wf "projects" (fun p => p.id) projectContent _
    (fun _ _ => rfl)
  exact h

/-- C4: every vector persisted by index_text, and hence by re_embed_all, has
length exactly EMBEDDING_DIMENSIONS: both operations preserve the stored-length
invariant, and an embedding of any other length is rejected by the vector(1536)
column before the write completes, leaving the database unchanged and raising
an error. -/
theorem embedding_length_invariant :
    (∀ (client : EmbedClient) (wf : WriteFailure) (db : Database) (t r c : String),
      allVecsD db → allVecsD ((index_text client wf db t r c).db)) ∧
    (∀ (client : EmbedClient) (wf : WriteFailure) (db : Database),
      allVecsD db → allVecsD ((re_embed_all client wf db).2)) ∧
    (∀ (client : EmbedClient) (wf : WriteFailure) (db : Database) (t r c : String) (v : List ℚ),
      (embed client c).1 = .ok v → v.length ≠ EMBEDDING_DIMENSIONS →
      (index_text client wf db t r c).db = db ∧
      ∃ e, (index_text client wf db t r c).result = .error e) := by
  refine ⟨fun client wf db t r c h => index_text_preserves_allVecsD client wf db t r c h,
    fun client wf db h => re_embed_all_preserves_allVecsD client wf db h,
    fun client wf db t r c v hE hlen => ?_⟩
  unfold index_text
  by_cases ht : t ∈ allowed_tables
  · rw [if_pos ht]
    split
    next e evs heq =>
      rw [heq] at hE
      simp at hE
    next v2 evs heq =>
      rw [heq] at hE
      have hv2 : v2 = v := by simpa using hE
      subst hv2
      by_cases hwf : wf t r
      · rw [storeUpdate_wf_true wf db t r v2 hwf]
        exact ⟨rfl, _, rfl⟩
      · rw [storeUpdate_len_ne wf db t r v2 hwf hlen]
        exact ⟨rfl, _, rfl⟩
  · rw [if_neg ht]
    exact ⟨rfl, _, rfl⟩

/-- Witness for embedding_length_invariant: a database satisfying the invariant
still satisfies it after a well-formed index_text write, and a provider
returning a vector of length 700 is rejected with the database unchanged. -/
theorem embedding_length_invariant_witness :
    allVecsD sampleDb ∧
    allVecsD ((index_text okClient noFail sampleDb "projects" "p1" "text").db) ∧
    ((index_text shortClient noFail sampleDb "projects" "p1" "text").db = sampleDb ∧
      ∃ e, (index_text shortClient noFail sampleDb "projects" "p1" "text").result = .error e) := by
  have hall : allVecsD sampleDb := by
    intro w hw
    simp only [vecsOf, sampleDb, sampleProject, List.filterMap, List.mem_append] at hw
    simp at hw
    rw [hw]
    simp [zeroVec]
  have hE : (embed shortClient "text").1 = .ok (List.replicate 700 (0 : ℚ)) := by
    unfold embed
    rw [if_neg (by decide)]
    rfl
  exact ⟨hall,
    embedding_length_invariant.1 okClient noFail sampleDb "projects" "p1" "text" hall,
    embedding_length_invariant.2.2 shortClient noFail sampleDb "projects" "p1" "text"
      (List.replicate 700 (0 : ℚ)) hE (by rw [List.length_replicate]; decide)⟩

/-- Helper: a predicate count plus the complement count is the list length. -/
theorem countP_not_add {α : Type} (p : α → Bool) (l : List α) :
    l.countP p + l.countP (fun a => !p a) = l.length := by
  induction l with
  | nil => rfl
  | cons a l ih =>
    rw [List.countP_cons, List.countP_cons, List.length_cons]
    cases h : p a <;> simp [h] <;> omega

/-- Helper: counts of a predicate factoring through f agree on lists with equal
images under f. -/
theorem countP_comp_eq_of_map_eq {α β : Type} (f : α → β) (p : β → Bool)
    {l1 l2 : List α} (h : l1.map f = l2.map f) :
    l1.countP (fun a => p (f a)) = l2.countP (fun a => p (f a)) := by
  have h1 := List.countP_map p f l1
  have h2 := List.countP_map p f l2
  rw [h] at h1
  exact h1.symm.trans h2

/-- Helper: lists with equal images under f have equal length. -/
theorem length_eq_of_map_eq {α β : Type} (f : α → β) {l1 l2 : List α}
    (h : l1.map f = l2.map f) : l1.length = l2.length := by
  have h2 := congrArg List.length h
  simpa using h2

/-- Helper: updating embeddings leaves the (id, text) view of the projects table
unchanged. -/
theorem map_projText_set (ps : List ProjectRow) (r : String) (v : List ℚ) :
    (setProjectEmbedding ps r v).map projText = ps.map projText := by
  unfold setProjectEmbedding
  rw [List.map_map]
  apply List.map_congr_left
  intro p hp
  by_cases h : p.id = r <;> simp [Function.comp, projText, projectContent, h]

/-- Helper: updating embeddings leaves the (id, text) view of the posts table
unchanged. -/
theorem map_postText_set (ps : List PostRow) (r : String) (v : List ℚ) :
    (setPostEmbedding ps r v).map postText = ps.map postText := by
  unfold setPostEmbedding
  rw [List.map_map]
  apply List.map_congr_left
  intro p hp
  by_cases h : p.id = r <;> simp [Function.comp, postText, postContent, h]

/-- Helper: updating embeddings leaves the (id, text) view of the certifications
table unchanged. -/
theorem map_certText_set (cs : List CertificationRow) (r : String) (v : List ℚ) :
    (setCertEmbedding cs r v).map certText = cs.map certText := by
  unfold setCertEmbedding
  rw [List.map_map]
  apply List.map_congr_left
  intro p hp
  by_cases h : p.id = r <;> simp [Function.comp, certText, certContent, h]

/-- Helper: applyUpdate preserves the (id, text) view of all three tables. -/
theorem textShapes_applyUpdate (db : Database) (t r : String) (v : List ℚ) :
    textShapes (applyUpdate db t r v) = textShapes db := by
  unfold applyUpdate
  by_cases h1 : t = "projects"
  · rw [if_pos h1]
    simp [textShapes, map_projText_set]
  · rw [if_neg h1]
    by_cases h2 : t = "posts"
    · rw [if_pos h2]
      simp [textShapes, map_postText_set]
    · rw [if_neg h2]
      simp [textShapes, map_certText_set]

/-- Helper: for an allowed table, index_text fails exactly when the item fails
(embedding error, transient storage failure, or wrong dimension). -/
theorem index_text_failed_eq (client : EmbedClient) (wf : WriteFailure) (db : Database)
    (t r c : String) (ht : t ∈ allowed_tables) :
    (index_text client wf db t r c).failed = item_fails client wf t r c := by
  unfold index_text item_fails
  rw [if_pos ht]
  split
  next e evs heq => rw [heq]; rfl
  next v evs heq =>
    rw [heq]
    by_cases hwf : wf t r
    · rw [storeUpdate_wf_true wf db t r v hwf]
      simp [IndexOutcome.failed, hwf]
    · by_cases hlen : v.length = EMBEDDING_DIMENSIONS
      · rw [storeUpdate_ok wf db t r v hwf hlen]
        simp [IndexOutcome.failed, hwf, hlen]
      · rw [storeUpdate_len_ne wf db t r v hwf hlen]
        simp [IndexOutcome.failed, hwf, hlen]

/-- Helper: index_text never changes the (id, text) view of the three tables. -/
theorem index_text_textShapes (client : EmbedClient) (wf : WriteFailure) (db : Database)
    (t r c : String) :
    textShapes ((index_text client wf db t r c).db) = textShapes db := by
  unfold index_text
  by_cases ht : t ∈ allowed_tables
  · rw [if_pos ht]
    split
    next e evs heq => rfl
    next v evs heq =>
      by_cases hwf : wf t r
      · rw [storeUpdate_wf_true wf db t r v hwf]
      · by_cases hlen : v.length = EMBEDDING_DIMENSIONS
        · rw [storeUpdate_ok wf db t r v hwf hlen]
          exact textShapes_applyUpdate db t r v
        · rw [storeUpdate_len_ne wf db t r v hwf hlen]
  · rw [if_neg ht]

/-- Helper: one loop iteration of re_embed_all increments exactly one of the two
counters, according to item_fails, and preserves the (id, text) view. -/
theorem reEmbedStep_spec (client : EmbedClient) (wf : WriteFailure)
    (st : ReEmbedResult × Database) (t r c : String) (ht : t ∈ allowed_tables) :
    (reEmbedStep client wf st t r c).1.errors =
      st.1.errors + (if item_fails client wf t r c then 1 else 0) ∧
    (reEmbedStep client wf st t r c).1.indexed =
      st.1.indexed + (if item_fails client wf t r c then 0 else 1) ∧
    textShapes (reEmbedStep client wf st t r c).2 = textShapes st.2 := by
  have hf := index_text_failed_eq client wf st.2 t r c ht
  have hs := index_text_textShapes client wf st.2 t r c
  unfold reEmbedStep
  rcases hI : index_text client wf st.2 t r c with ⟨res, db2, evs⟩
  rw [hI] at hf hs
  cases res with
  | ok u =>
    have hff : item_fails client wf t r c = false := by
      simpa [IndexOutcome.failed] using hf.symm
    exact ⟨by simp [hff], by simp [hff], hs⟩
  | error e =>
    have hff : item_fails client wf t r c = true := by
      simpa [IndexOutcome.failed] using hf.symm
    exact ⟨by simp [hff], by simp [hff], hs⟩

/-- Helper: folding the re_embed_all loop over a row list adds the count of
failing rows to errors and the count of succeeding rows to indexed, preserving
the (id, text) view of the database. -/
theorem foldl_reEmbed_counts {α : Type} (client : EmbedClient) (wf : WriteFailure)
    (t : String) (ht : t ∈ allowed_tables) (fId fC : α → String)
    (g : ReEmbedResult × Database → α → ReEmbedResult × Database)
    (hg : ∀ s x, g s x = reEmbedStep client wf s t (fId x) (fC x))
    (xs : List α) (st : ReEmbedResult × Database) :
    (xs.foldl g st).1.errors =
      st.1.errors + xs.countP (fun x => item_fails client wf t (fId x) (fC x)) ∧
    (xs.foldl g st).1.indexed =
      st.1.indexed + xs.countP (fun x => !item_fails client wf t (fId x) (fC x)) ∧
    textShapes (xs.foldl g st).2 = textShapes st.2 := by
  induction xs generalizing st with
  | nil => simp
  | cons x xs ih =>
    obtain ⟨ih1, ih2, ih3⟩ := ih (g st x)
    obtain ⟨s1, s2, s3⟩ := reEmbedStep_spec client wf st t (fId x) (fC x) ht
    refine ⟨?_, ?_, ?_⟩
    · rw [List.foldl_cons, ih1, hg st x, s1, List.countP_cons]
      cases h : item_fails client wf t (fId x) (fC x) <;> simp [h] <;> omega
    · rw [List.foldl_cons, ih2, hg st x, s2, List.countP_cons]
      cases h : item_fails client wf t (fId x) (fC x) <;> simp [h] <;> omega
    · rw [List.foldl_cons, ih3, hg st x, s3]

/-- C6: re_embed_all processes every item across the three collections — no
failure aborts the batch — returning errors equal to the number of failing
items and indexed equal to the remaining items, with indexed plus errors equal
to the total item count. -/
theorem re_embed_all_counts (client : EmbedClient) (wf : WriteFailure) (db : Database) :
    (re_embed_all client wf db).1.errors = failCount client wf db ∧
    (re_embed_all client wf db).1.indexed = totalItems db - failCount client wf db ∧
    (re_embed_all client wf db).1.indexed + (re_embed_all client wf db).1.errors =
      totalItems db := by
  obtain ⟨e1, i1, s1⟩ := foldl_reEmbed_counts client wf "projects" (by decide)
    (fun p => p.id) projectContent
    (fun st p => reEmbedStep client wf st "projects" p.id (projectContent p))
    (fun _ _ => rfl) db.projects ({ indexed := 0, errors := 0 }, db)
  set st1 := db.projects.foldl
    (fun st p => reEmbedStep client wf st "projects" p.id (projectContent p))
    ({ indexed := 0, errors := 0 }, db) with hst1
  obtain ⟨e2, i2, s2⟩ := foldl_reEmbed_counts client wf "posts" (by decide)
    (fun p => p.id) postContent
    (fun st p => reEmbedStep client wf st "posts" p.id (postContent p))
    (fun _ _ => rfl) st1.2.posts st1
  set st2 := st1.2.posts.foldl
    (fun st p => reEmbedStep client wf st "posts" p.id (postContent p)) st1 with hst2
  obtain ⟨e3, i3, s3⟩ := foldl_reEmbed_counts client wf "certifications" (by decide)
    (fun c => c.id) certContent
    (fun st c => reEmbedStep client wf st "certifications" c.id (certContent c))
    (fun _ _ => rfl) st2.2.certifications st2
  have hre : re_embed_all client wf db =
      st2.2.certifications.foldl
        (fun st c => reEmbedStep client wf st "certifications" c.id (certContent c)) st2 := by
    rw [hst2, hst1]
    rfl
  simp only [textShapes, Prod.mk.injEq] at s1 s2
  obtain ⟨s1p, s1po, s1c⟩ := s1
  obtain ⟨s2p, s2po, s2c⟩ := s2
  have hcmap : st2.2.certifications.map certText = db.certifications.map certText :=
    s2c.trans s1c
  have hfPo : st1.2.posts.countP (fun p => item_fails client wf "posts" p.id (postContent p)) =
      db.posts.countP (fun p => item_fails client wf "posts" p.id (postContent p)) :=
    countP_comp_eq_of_map_eq postText (fun pr => item_fails client wf "posts" pr.1 pr.2) s1po
  have hnPo : st1.2.posts.countP (fun p => !item_fails client wf "posts" p.id (postContent p)) =
      db.posts.countP (fun p => !item_fails client wf "posts" p.id (postContent p)) :=
    countP_comp_eq_of_map_eq postText (fun pr => !item_fails client wf "posts" pr.1 pr.2) s1po
  have hfC : st2.2.certifications.countP
        (fun c => item_fails client wf "certifications" c.id (certContent c)) =
      db.certifications.countP
        (fun c => item_fails client wf "certifications" c.id (certContent c)) :=
    countP_comp_eq_of_map_eq certText
      (fun pr => item_fails client wf "certifications" pr.1 pr.2) hcmap
  have hnC : st2.2.certifications.countP
        (fun c => !item_fails client wf "certifications" c.id (certContent c)) =
      db.certifications.countP
        (fun c => !item_fails client wf "certifications" c.id (certContent c)) :=
    countP_comp_eq_of_map_eq certText
      (fun pr => !item_fails client wf "certifications" pr.1 pr.2) hcmap
  have cP := countP_not_add
    (fun p : ProjectRow => item_fails client wf "projects" p.id (projectContent p)) db.projects
  have cPo := countP_not_add
    (fun p : PostRow => item_fails client wf "posts" p.id (postContent p)) db.posts
  have cC := countP_not_add
    (fun c : CertificationRow => item_fails client wf "certifications" c.id (certContent c))
    db.certifications
  rw [hre]
  refine ⟨?_, ?_, ?_⟩
  · rw [e3, e2, e1, hfC, hfPo]
    simp only [failCount]
    omega
  · rw [i3, i2, i1, hnC, hnPo]
    simp only [failCount, totalItems]
    omega
  · rw [i3, i2, i1, e3, e2, e1, hnC, hnPo, hfC, hfPo]
    simp only [failCount, totalItems]
    omega

/-- Helper: an UPDATE whose id matches no project row leaves the list unchanged. -/
theorem setProjectEmbedding_noop (ps : List ProjectRow) (r : String) (v : List ℚ)
    (h : ps.any (fun p => p.id == r) = false) : setProjectEmbedding ps r v = ps := by
  unfold setProjectEmbedding
  have h2 := List.any_eq_false.1 h
  conv_rhs => rw [← List.map_id ps]
  apply List.map_congr_left
  intro p hp
  have h3 : ¬(p.id == r) = true := h2 p hp
  rw [if_neg (by simpa using h3)]
  rfl

/-- Helper: an UPDATE whose id matches no post row leaves the list unchanged. -/
theorem setPostEmbedding_noop (ps : List PostRow) (r : String) (v : List ℚ)
    (h : ps.any (fun p => p.id == r) = false) : setPostEmbedding ps r v = ps := by
  unfold setPostEmbedding
  have h2 := List.any_eq_false.1 h
  conv_rhs => rw [← List.map_id ps]
  apply List.map_congr_left
  intro p hp
  have h3 : ¬(p.id == r) = true := h2 p hp
  rw [if_neg (by simpa using h3)]
  rfl

/-- Helper: an UPDATE whose id matches no certification row leaves the list
unchanged. -/
theorem setCertEmbedding_noop (cs : List CertificationRow) (r : String) (v : List ℚ)
    (h : cs.any (fun c => c.id == r) = false) : setCertEmbedding cs r v = cs := by
  unfold setCertEmbedding
  have h2 := List.any_eq_false.1 h
  conv_rhs => rw [← List.map_id cs]
  apply List.map_congr_left
  intro p hp
  have h3 : ¬(p.id == r) = true := h2 p hp
  rw [if_neg (by simpa using h3)]
  rfl

/-- Helper: when the target id exists in no row of the addressed table, the
UPDATE matches zero rows and the database is unchanged. -/
theorem applyUpdate_noop (db : Database) (t r : String) (v : List ℚ)
    (h : rowExists db t r = false) : applyUpdate db t r v = db := by
  unfold applyUpdate
  unfold rowExists at h
  by_cases h1 : t = "projects"
  · rw [if_pos h1] at h ⊢
    rw [setProjectEmbedding_noop db.projects r v h]
  · rw [if_neg h1] at h ⊢
    by_cases h2 : t = "posts"
    · rw [if_pos h2] at h ⊢
      rw [setPostEmbedding_noop db.posts r v h]
    · rw [if_neg h2] at h ⊢
      rw [setCertEmbedding_noop db.certifications r v h]

/-- C8: index_text on a table outside the allow-list raises ValueError
(InvalidArgument) with no provider call and no storage call and the database
untouched; on an allowed table whose row id no longer exists, with a healthy
store and a well-formed embedding, the write succeeds as a silent no-op leaving
the database unchanged. -/
theorem index_text_table_guard :
    (∀ (client : EmbedClient) (wf : WriteFailure) (db : Database) (t r c : String),
      t ∉ allowed_tables →
      (∃ m, (index_text client wf db t r c).result = .error (.valueError m)) ∧
      (index_text client wf db t r c).events = [] ∧
      (index_text client wf db t r c).db = db) ∧
    (∀ (client : EmbedClient) (wf : WriteFailure) (db : Database) (t r c : String) (v : List ℚ),
      t ∈ allowed_tables → rowExists db t r = false → wf t r = false →
      (embed client c).1 = .ok v → v.length = EMBEDDING_DIMENSIONS →
      (index_text client wf db t r c).result = .ok () ∧
      (index_text client wf db t r c).db = db) := by
  constructor
  · intro client wf db t r c ht
    unfold index_text
    rw [if_neg ht]
    exact ⟨⟨_, rfl⟩, rfl, rfl⟩
  · intro client wf db t r c v ht hrow hwf hE hlen
    unfold index_text
    rw [if_pos ht]
    split
    next e evs heq =>
      rw [heq] at hE
      simp at hE
    next v2 evs heq =>
      rw [heq] at hE
      have hv2 : v2 = v := by simpa using hE
      subst hv2
      rw [storeUpdate_ok wf db t r v2 (by simp [hwf]) hlen]
      refine ⟨rfl, ?_⟩
      show applyUpdate db t r v2 = db
      exact applyUpdate_noop db t r v2 hrow

/-- Witness for index_text_table_guard: the table users is rejected before any
call, and an allowed-table write to an absent id succeeds without changing the
database. -/
theorem index_text_table_guard_witness :
    (("users" : String) ∉ allowed_tables ∧
      (∃ m, (index_text okClient noFail sampleDb "users" "p1" "text").result =
        .error (.valueError m)) ∧
      (index_text okClient noFail sampleDb "users" "p1" "text").events = [] ∧
      (index_text okClient noFail sampleDb "users" "p1" "text").db = sampleDb) ∧
    ((index_text okClient noFail sampleDb "projects" "zz" "text").result = .ok () ∧
      (index_text okClient noFail sampleDb "projects" "zz" "text").db = sampleDb) := by
  have hnotin : ("users" : String) ∉ allowed_tables := by decide
  have hE : (embed okClient "text").1 = .ok zeroVec := by
    unfold embed
    rw [if_neg (by decide)]
    rfl
  refine ⟨⟨hnotin, index_text_table_guard.1 okClient noFail sampleDb "users" "p1" "text" hnotin⟩,
    index_text_table_guard.2 okClient noFail sampleDb "projects" "zz" "text" zeroVec
      (by decide) (by decide) rfl hE (by simp [zeroVec])⟩

end Portfolio
